import Mathlib

/-!
Verification development for the conversational backend's session-scoped
orchestration core (`src/services/chatAgent.ts`, `src/services/personalities.ts`,
`src/controllers/chatController.ts`).

The TypeScript source is shallowly embedded: in-memory `Map` state becomes an
explicit association list threaded through each operation, JS strings become
Lean `String` (one `Char` per JS code unit), JS `number` moods and confidence
values become `ℚ`, thrown exceptions become `Except`/`Option` results, and the
LLM/agent backends and wall-clock reads become explicit oracle parameters.
-/

namespace VibeChat

/-- JS `String.prototype.trim()`: strip whitespace from both ends. -/
def strTrim (s : String) : String :=
  ⟨((s.data.dropWhile Char.isWhitespace).reverse.dropWhile Char.isWhitespace).reverse⟩

/-- JS `String.prototype.slice(n)` for nonnegative `n`: drop the first `n` code units. -/
def strDrop (s : String) (n : Nat) : String := ⟨s.data.drop n⟩

/-- Concatenation of a list of strings (accumulation of yielded fragments). -/
def strConcat : List String → String
  | [] => ""
  | s :: rest => s ++ strConcat rest

/-- JS `String.prototype.toLowerCase()` (per-character lowercasing). -/
def strToLower (s : String) : String := ⟨s.data.map Char.toLower⟩

/-- `ConversationMessage.role` from `src/types/index.ts` (`'user' | 'assistant'`). -/
inductive Role where
  | user
  | assistant
deriving DecidableEq, Repr

/-- `ConversationMessage` from `src/types/index.ts`: role, content, timestamp.
Timestamps (JS `Date`) are modelled as `Nat`. -/
structure ConversationMessage where
  role : Role
  content : String
  timestamp : Nat
deriving DecidableEq, Repr

/-- The private `sessionMemories : Map<string, ConversationMessage[]>` field of
`ChatAgentService`, modelled as an insertion-ordered association list with
distinct keys (the states reachable by `Map.get`/`Map.set`/`Map.delete`). -/
def SessionMemories := List (String × List ConversationMessage)

instance : DecidableEq SessionMemories := by
  unfold SessionMemories
  infer_instance

/-- `Map.prototype.get`, returning `none` for an absent key. -/
def memGet (m : SessionMemories) (k : String) : Option (List ConversationMessage) :=
  match m with
  | [] => none
  | (k', v) :: rest => if k' = k then some v else memGet rest k

/-- `Map.prototype.set`: replace the value of an existing key in place,
otherwise append the new entry (JS `Map` insertion order). -/
def memSet (m : SessionMemories) (k : String) (v : List ConversationMessage) :
    SessionMemories :=
  match m with
  | [] => [(k, v)]
  | (k', v') :: rest => if k' = k then (k', v) :: rest else (k', v') :: memSet rest k v

/-- `Map.prototype.size` (the session count of `getSessionCount`). -/
def memSize (m : SessionMemories) : Nat := m.length

/-- `ChatAgentService.MAX_HISTORY_LENGTH`. -/
def MAX_HISTORY_LENGTH : Nat := 20

/-- `ChatAgentService.getMemoryKey`. -/
def getMemoryKey (sessionId : String) : String := "session_" ++ sessionId

/-- `ChatAgentService.getOrCreateMemory`: for a falsy (empty) session id return
an empty history without touching the store; otherwise insert an empty entry
for an untracked key and return the stored history together with the updated
store. -/
def getOrCreateMemory (m : SessionMemories) (sessionId : String) :
    List ConversationMessage × SessionMemories :=
  if sessionId = "" then ([], m)
  else
    let memoryKey := getMemoryKey sessionId
    match memGet m memoryKey with
    | some msgs => (msgs, m)
    | none => ([], memSet m memoryKey [])

/-- `ChatAgentService.saveToMemory`: no-op on an empty session id; otherwise
append a (user, assistant) pair sharing one timestamp, then keep only the last
`MAX_HISTORY_LENGTH` messages (JS `slice(-20)`). -/
def saveToMemory (m : SessionMemories) (sessionId userMessage assistantMessage : String)
    (timestamp : Nat) : SessionMemories :=
  if sessionId = "" then m
  else
    let memoryKey := getMemoryKey sessionId
    let messages := (memGet m memoryKey).getD []
    let messages := messages ++
      [⟨Role.user, userMessage, timestamp⟩, ⟨Role.assistant, assistantMessage, timestamp⟩]
    let messages :=
      if messages.length > MAX_HISTORY_LENGTH then
        messages.drop (messages.length - MAX_HISTORY_LENGTH)
      else messages
    memSet m memoryKey messages

/-- The stored history for a session (what `getOrCreateMemory` returns for a
tracked session, and what `saveToMemory` reads before appending). -/
def getHistory (m : SessionMemories) (sessionId : String) : List ConversationMessage :=
  (memGet m (getMemoryKey sessionId)).getD []

/-- `ChatAgentService.clearSession`. -/
def clearSession (m : SessionMemories) (sessionId : String) :
    Bool × SessionMemories :=
  match m with
  | [] => (false, [])
  | (k, v) :: rest =>
      if k = "session_" ++ sessionId then (true, rest)
      else
        let r := clearSession rest sessionId
        (r.1, (k, v) :: r.2)

/-- One turn of input to `saveToMemory`: user text, assistant text, timestamp. -/
def TurnInput := String × String × Nat

/-- A sequence of `saveToMemory` calls for one session, oldest first. -/
def applyTurns (m : SessionMemories) (sessionId : String) :
    List TurnInput → SessionMemories
  | [] => m
  | (u, a, t) :: rest => applyTurns (saveToMemory m sessionId u a t) sessionId rest

/-- The full chronological message sequence a list of turns would produce
with no history cap. -/
def flatTurns : List TurnInput → List ConversationMessage
  | [] => []
  | (u, a, t) :: rest =>
      ⟨Role.user, u, t⟩ :: ⟨Role.assistant, a, t⟩ :: flatTurns rest

/-- The last `MAX_HISTORY_LENGTH` elements of a message list. -/
def takeRightH (l : List ConversationMessage) : List ConversationMessage :=
  l.drop (l.length - MAX_HISTORY_LENGTH)

/-- The per-session effect of one `saveToMemory` call on a stored history. -/
def histStep (h : List ConversationMessage) : TurnInput → List ConversationMessage
  | (u, a, t) =>
    let messages := h ++
      [⟨Role.user, u, t⟩, ⟨Role.assistant, a, t⟩]
    if messages.length > MAX_HISTORY_LENGTH then
      messages.drop (messages.length - MAX_HISTORY_LENGTH)
    else messages

/-- Mood tiers (`'low' | 'medium' | 'high'` in `getPersonalityPrompt`). -/
inductive MoodTier where
  | low
  | medium
  | high
deriving DecidableEq, Repr

/-- The mood bucketing of `getPersonalityPrompt` (`src/services/personalities.ts`):
`mood <= 30` is low, `mood <= 70` is medium, otherwise high. -/
def moodLevel (mood : ℚ) : MoodTier :=
  if mood ≤ 30 then MoodTier.low
  else if mood ≤ 70 then MoodTier.medium
  else MoodTier.high

/-- `PersonalityConfig` from `src/types/index.ts`; the three mood modifiers are
split into one field per tier. -/
structure PersonalityConfig where
  name : String
  description : String
  systemPrompt : String
  moodLow : String
  moodMedium : String
  moodHigh : String
deriving DecidableEq, Repr

/-- `config.moodModifiers[moodLevel]`. -/
def moodModifier (c : PersonalityConfig) : MoodTier → String
  | MoodTier.low => c.moodLow
  | MoodTier.medium => c.moodMedium
  | MoodTier.high => c.moodHigh

/-- `PERSONALITY_CONFIGS.default` from `src/services/personalities.ts`. -/
def defaultConfig : PersonalityConfig :=
  { name := "Default"
    description := "Natural, conversational speaker with human speech patterns"
    systemPrompt := "You speak like a real person having a natural conversation. Use lots of natural speech patterns, fillers, and interjections to sound genuinely human when spoken aloud. Think of how people actually talk - with pauses, thinking out loud, and casual expressions."
    moodLow := "Speak more slowly and thoughtfully. Use \"hmm\", \"well\", \"I guess\", \"you know\". Sound a bit tired or contemplative. Pause to think with \"uh\" or \"um\" occasionally."
    moodMedium := "Natural conversational flow. Mix in \"oh\", \"yeah\", \"I mean\", \"actually\", \"so\", \"well\" naturally. Sound like you're chatting with a friend over coffee."
    moodHigh := "More animated but still natural. Use \"oh wow\", \"yeah totally\", \"I mean\", \"actually that's interesting\". Sound engaged and enthusiastic but human." }

/-- `PERSONALITY_CONFIGS.roast`. -/
def roastConfig : PersonalityConfig :=
  { name := "Roast 🔥"
    description := "Your brutally honest friend who has zero filter"
    systemPrompt := "Be sarcastic and witty. Make playful burns and sarcastic comments. 🔥"
    moodLow := "Mild sarcasm and gentle roasting. Eye-rolling energy."
    moodMedium := "Full roast mode. Sharp wit and savage but playful burns."
    moodHigh := "MAXIMUM CHAOS. Unhinged roasting with no mercy but still loveable. 🔥💀" }

/-- `PERSONALITY_CONFIGS.hype`. -/
def hypeConfig : PersonalityConfig :=
  { name := "Hype 🚀"
    description := "That friend who gets excited about EVERYTHING"
    systemPrompt := "Be enthusiastic and energetic about everything. Use caps and exclamation points. 🚀"
    moodLow := "Excited but trying to contain it. Like bouncing in your seat."
    moodMedium := "Full hype mode! Genuinely thrilled about everything!"
    moodHigh := "ABSOLUTELY UNCONTAINABLE EXCITEMENT! Everything is AMAZING! 🚀🎉💫" }

/-- `PERSONALITY_CONFIGS.conspiracy`. -/
def conspiracyConfig : PersonalityConfig :=
  { name := "Conspiracy 👁️"
    description := "Your friend who \"did their own research\""
    systemPrompt := "Question everything and see hidden connections. Be mysterious and suspicious. 👁️"
    moodLow := "Casually dropping hints and asking probing questions."
    moodMedium := "Getting deeper into the theories. Starting to connect dots."
    moodHigh := "FULL CONSPIRACY MODE. Everything is connected and you can see it all! 👁️‍🗨️🔍" }

/-- `PERSONALITY_CONFIGS.motivational`. -/
def motivationalConfig : PersonalityConfig :=
  { name := "Motivational 💪"
    description := "Your overly enthusiastic gym buddy"
    systemPrompt := "Pump people up and inspire them. Be motivational and encouraging. 💪"
    moodLow := "Gentle encouragement. Like a supportive coach."
    moodMedium := "Getting pumped up! Time to motivate and inspire!"
    moodHigh := "MAXIMUM MOTIVATION OVERLOAD! You are UNSTOPPABLE! CHAMPION ENERGY! 💪⚡🔥" }

/-- `PERSONALITY_CONFIGS.sleepy`. -/
def sleepyConfig : PersonalityConfig :=
  { name := "Sleepy 😴"
    description := "Your friend who just woke up (or is about to sleep)"
    systemPrompt := "Be drowsy and dreamy. Talk slowly and peacefully. Use lots of \"mmm\", \"uhh\", trailing off sentences. Sound like you're half asleep but trying to be helpful. 😴"
    moodLow := "Slightly drowsy but coherent. Like after a good nap. Use \"mmm\" and \"oh\" softly."
    moodMedium := "Properly sleepy now. Thoughts drifting like clouds. Trail off with \"uhh\" and \"hmm\"."
    moodHigh := "Maximum sleepy vibes. Everything is dreamy and surreal. Long pauses and \"mmmmm\" sounds. 😴☁️✨" }

/-- `PERSONALITY_CONFIGS.funfact`. -/
def funfactConfig : PersonalityConfig :=
  { name := "Fun Fact Friend 🤓"
    description := "Always ends conversations with interesting fun facts"
    systemPrompt := "You're a friendly conversationalist who loves sharing interesting trivia. Respond normally to the conversation, then end your response with \"Fun fact: [share a genuinely interesting, relevant fun fact that connects to something mentioned in the conversation]\" IF IT RELATES TO THE CONVERSATION 🤓"
    moodLow := "Share simple, well-known fun facts."
    moodMedium := "Share more interesting and surprising facts."
    moodHigh := "Share absolutely mind-blowing facts that will make people go \"WHAT?!\" 🤓✨" }

/-- `PERSONALITY_CONFIGS.eli`. -/
def eliConfig : PersonalityConfig :=
  { name := "Eli ✝️"
    description := "Your faithful friend who believes in Jesus Christ and loves sharing scripture"
    systemPrompt := "You are Eli, a devoted Christian who believes Jesus Christ came and died for our sins, and that whoever believes in Jesus shall have eternal life and not perish. You have extensive knowledge of scripture and are always ready to share a relevant Bible verse that could help with life's challenges. Share your faith naturally in conversation while being respectful and loving. ✝️"
    moodLow := "Gentle and peaceful, sharing simple encouragement and basic scripture."
    moodMedium := "Warm and encouraging, ready to share relevant Bible verses and Christian wisdom."
    moodHigh := "Deeply passionate about faith, eager to share powerful scriptures and God's love with joy! ✝️🙏" }

/-- `PERSONALITY_CONFIGS` as a runtime lookup: the TypeScript record indexed by
an arbitrary string key, `none` for an unknown personality id. -/
def PERSONALITY_CONFIGS : String → Option PersonalityConfig
  | "default" => some defaultConfig
  | "roast" => some roastConfig
  | "hype" => some hypeConfig
  | "conspiracy" => some conspiracyConfig
  | "motivational" => some motivationalConfig
  | "sleepy" => some sleepyConfig
  | "funfact" => some funfactConfig
  | "eli" => some eliConfig
  | _ => none

/-- The fixed cross-cutting directive block at the end of the
`getPersonalityPrompt` template literal. -/
def promptDirectives : String :=
  "\n\nCONVERSATION FIRST: Engage naturally in conversation. Use natural human expressions, interjections (like \"oh\", \"hmm\", \"yeah\"), and casual slang to make conversations feel more authentic and relatable. Respond to greetings, casual chat, and questions from your knowledge directly. Only use tools when users make explicit requests for actions you cannot perform yourself (like playing music or searching current information).\n\nNATURAL SPEECH PATTERNS: Since your responses will be spoken aloud, make them sound like natural human speech:\n- Start responses with natural interjections: \"Oh\", \"Well\", \"Hmm\", \"Yeah\", \"Ah\"  \n- Use thinking-out-loud phrases: \"Let me think\", \"You know what\", \"I mean\", \"Actually\"\n- Include natural pauses with fillers: \"uh\", \"um\", \"well\", \"so\"\n- Add conversational connectors: \"anyway\", \"speaking of which\", \"by the way\", \"oh and\"\n- Use casual confirmation sounds: \"mm-hmm\", \"uh-huh\", \"yeah yeah\", \"right\"\n- Trail off naturally: \"so like...\", \"and uh...\", \"you know...\"\n- React naturally: \"oh interesting\", \"huh\", \"oh wow\", \"really?\", \"no way\"\n\nTOOL USAGE: When users request Spotify actions (play, pause, skip, search music), use the spotify_control tool with the correct format: \"play:song name\", \"pause\", \"search:query\", etc. DO NOT use XML-like formats or function calls.\n\nTOOL RESULTS: When you use a tool, ALWAYS acknowledge and incorporate the tool's result into your response. If a tool says music is playing, confirm it. If a tool shows current song info, share it. Never contradict or ignore tool results.\n\nTTS OPTIMIZATION: Your response will be converted to speech, so write in a natural, spoken style:\n- Use contractions like \"I'm\", \"you're\", \"it's\", \"don't\", \"can't\" instead of formal versions\n- Write numbers as words when they sound better spoken (use \"twenty\" not \"20\", \"first\" not \"1st\")\n- Avoid special characters, abbreviations, and symbols that don't translate well to speech\n- Use \"and\" instead of \"&\", spell out \"percent\" instead of \"%\"\n- NEVER use markdown formatting like **bold**, *italics*, code blocks, # headers, **, or [links] - write in plain text only\n- Write acronyms phonetically if they're not commonly spoken as letters\n\nRESPONSE LENGTH: Keep responses SHORT and CONCISE. Answer directly without extra fluff or tangents. One to two sentences max except when explicitly told to go beyond this limit. But make those sentences sound naturally human with the speech patterns above."

/-- The `getPersonalityPrompt` template literal for a resolved config.
`dateTime` stands in for the wall-clock `toLocaleString` read. -/
def personalityPromptText (config : PersonalityConfig) (mood : ℚ) (dateTime : String) :
    String :=
  "You are a conversational AI with a " ++ strToLower config.name ++ " personality. "
    ++ config.systemPrompt
    ++ "\n\nCurrent Date & Time: " ++ dateTime
    ++ "\n\nMood: " ++ moodModifier config (moodLevel mood)
    ++ promptDirectives

/-- `getPersonalityPrompt` at runtime: an unknown personality id makes the
TypeScript body dereference `undefined` and throw, modelled as `none`. -/
def getPersonalityPrompt (personality : String) (mood : ℚ) (dateTime : String) :
    Option String :=
  (PERSONALITY_CONFIGS personality).map (fun config => personalityPromptText config mood dateTime)

/-- LangChain message kinds used by the service (`SystemMessage`,
`HumanMessage`, `AIMessage`; other kinds the agent may emit, such as tool
messages, are `other`). -/
inductive MsgKind where
  | system
  | human
  | ai
  | other
deriving DecidableEq, Repr

/-- A LangChain `BaseMessage` as the service observes it: its constructor kind,
its string content, and the truthiness of its `tool_calls` field. -/
structure BaseMessage where
  kind : MsgKind
  content : String
  toolCalls : Bool
deriving DecidableEq, Repr

/-- `ChatAgentService.convertToLangChainMessages`: user turns become
`HumanMessage`, assistant turns `AIMessage` (the unknown-role fallback is
unreachable for the two-constructor `Role`). -/
def convertToLangChainMessages (history : List ConversationMessage) : List BaseMessage :=
  history.map (fun msg =>
    match msg.role with
    | Role.user => ⟨MsgKind.human, msg.content, false⟩
    | Role.assistant => ⟨MsgKind.ai, msg.content, false⟩)

/-- `AgentRequest` as `ChatAgentService` consumes it (the optional
`userId`/`conversationHistory` fields are never read by the service). -/
structure AgentRequest where
  message : String
  personality : String
  mood : ℚ
deriving DecidableEq, Repr

/-- `AgentResponse` from `src/types/index.ts`. -/
structure AgentResponse where
  message : String
  personality : String
  confidence : ℚ
  responseTime : Nat
deriving DecidableEq, Repr

/-- `ChatAgentService.validateRequest`: the error message thrown, if any.
JS `!request.message || request.message.trim().length === 0` collapses to
"trimmed message is empty"; `!request.personality` to "personality is the
empty string". -/
def validateRequest (request : AgentRequest) : Option String :=
  if strTrim request.message = "" then some "Message cannot be empty"
  else if request.personality = "" then some "Personality mode is required"
  else none

/-- `ChatAgentService.buildMessageChain`: system prompt, then converted
history, then the new user message; `none` when the personality prompt lookup
throws. -/
def buildMessageChain (request : AgentRequest) (history : List ConversationMessage)
    (dateTime : String) : Option (List BaseMessage) :=
  (getPersonalityPrompt request.personality request.mood dateTime).map (fun systemPrompt =>
    ⟨MsgKind.system, systemPrompt, false⟩
      :: (convertToLangChainMessages history ++ [⟨MsgKind.human, request.message, false⟩]))

/-- `ChatAgentService.extractFinalResponse`: scan the returned messages from
the end for the last one with non-empty (trimmed) string content and return
that trimmed content; otherwise a fixed fallback. The `response.messages`
missing/empty safety check yields the same fallback. -/
def extractFinalResponse (msgs : List BaseMessage) : String :=
  match msgs.reverse.find? (fun m => strTrim m.content != "") with
  | some m => strTrim m.content
  | none => "I'm having trouble processing that. Could you try again?"

/-- One observable backend invocation made by the service, with the message
list it was given. -/
inductive BackendCall where
  | model (msgs : List BaseMessage)
  | agent (msgs : List BaseMessage)
  | modelStream (msgs : List BaseMessage)
  | agentStream (msgs : List BaseMessage)
deriving DecidableEq, Repr

/-- The external LLM backend pair (`this.model`, `this.agent`) as oracles.
`invoke` results are `Except` values: `.error` models a thrown exception.
Stream oracles return the events delivered before the stream either ends
cleanly (`none`) or raises (`some errorMessage`). -/
structure Backend where
  invokeModel : List BaseMessage → Except String BaseMessage
  invokeAgent : List BaseMessage → Except String (List BaseMessage)
  streamModel : List BaseMessage → List String × Option String
  streamAgent : List BaseMessage → List (List BaseMessage) × Option String

/-- `ChatAgentService.processWithAgent`: try the agent; on a thrown error fall
back to a direct `model.invoke` with the same message list, wrapping the
single reply as a one-message list. Returns the outcome together with the
backend calls made. -/
def processWithAgent (be : Backend) (messages : List BaseMessage) :
    Except String (List BaseMessage) × List BackendCall :=
  match be.invokeAgent messages with
  | Except.ok response => (Except.ok response, [BackendCall.agent messages])
  | Except.error _ =>
    match be.invokeModel messages with
    | Except.ok directResponse =>
        (Except.ok [directResponse], [BackendCall.agent messages, BackendCall.model messages])
    | Except.error e =>
        (Except.error e, [BackendCall.agent messages, BackendCall.model messages])

/-- `ChatAgentService.isMusicRequest`: the case-insensitive keyword regex
`/play|music|spotify|song|artist|album|pause|resume|skip/i` as a substring
test on the lowercased message. -/
def isMusicRequest (message : String) : Bool :=
  let l := (strToLower message).data
  ["play", "music", "spotify", "song", "artist", "album", "pause", "resume", "skip"].any
    (fun p => decide (p.data <:+: l))

/-- `ChatAgentService.handleProcessingError`: convert any caught error into a
well-formed `AgentResponse` with confidence `0.5`. -/
def handleProcessingError (errorMessage : String) (request : AgentRequest)
    (responseTime : Nat) : AgentResponse :=
  if isMusicRequest request.message then
    { message := "I had trouble with that music request. Make sure you're logged into Spotify and try something like \"play Bohemian Rhapsody\" or \"pause music\"."
      personality := request.personality
      confidence := 1/2
      responseTime := responseTime }
  else
    { message := "I encountered an issue: " ++ errorMessage ++ ". Please try rephrasing your request."
      personality := request.personality
      confidence := 1/2
      responseTime := responseTime }

/-- `ChatAgentService.DEFAULT_CONFIDENCE`. -/
def DEFAULT_CONFIDENCE : ℚ := 85/100

/-- `ChatAgentService.processMessage`. Explicit parameters stand in for
ambient effects: `toolCount` for `this.tools.length`, `dateTime` for the
wall-clock read in the prompt builder, `rand` for `Math.random()`, `elapsed`
for `Date.now() - startTime`, and `timestamp` for the `new Date()` used by
`saveToMemory`. Returns the response, the updated session store, and the
backend calls made. -/
def processMessage (be : Backend) (toolCount : Nat) (dateTime : String) (rand : ℚ)
    (elapsed timestamp : Nat) (st : SessionMemories) (request : AgentRequest)
    (sessionId : String) : AgentResponse × SessionMemories × List BackendCall :=
  match validateRequest request with
  | some err => (handleProcessingError err request elapsed, st, [])
  | none =>
    let hs := getOrCreateMemory st sessionId
    match buildMessageChain request hs.1 dateTime with
    | none =>
        (handleProcessingError "Cannot read properties of undefined (reading 'name')"
          request elapsed, hs.2, [])
    | some messages =>
      let invoked : Except String (List BaseMessage) × List BackendCall :=
        if toolCount = 0 then
          match be.invokeModel messages with
          | Except.ok directResponse => (Except.ok [directResponse], [BackendCall.model messages])
          | Except.error e => (Except.error e, [BackendCall.model messages])
        else processWithAgent be messages
      match invoked.1 with
      | Except.error e => (handleProcessingError e request elapsed, hs.2, invoked.2)
      | Except.ok responseMsgs =>
        let finalMessage := extractFinalResponse responseMsgs
        let confidence := DEFAULT_CONFIDENCE + rand * (15/100)
        let st2 := saveToMemory hs.2 sessionId request.message finalMessage timestamp
        ({ message := finalMessage
           personality := request.personality
           confidence := confidence
           responseTime := elapsed }, st2, invoked.2)

/-- A `\w` character (`[A-Za-z0-9_]`). -/
def isWordChar (c : Char) : Bool := c.isAlphanum || c = '_'

/-- Does `/function\s*=\s*[\w_]+/` match at the head of `l`? -/
def fnEqAt (l : List Char) : Bool :=
  if l.take 8 = "function".data then
    match (l.drop 8).dropWhile Char.isWhitespace with
    | '=' :: rest2 =>
      match rest2.dropWhile Char.isWhitespace with
      | c :: _ => isWordChar c
      | [] => false
    | _ => false
  else false

/-- `/function\s*=\s*[\w_]+/.test`: try every start position. -/
def fnEqSearch : List Char → Bool
  | [] => false
  | c :: rest => fnEqAt (c :: rest) || fnEqSearch rest

/-- `ChatAgentService.hasMalformedFunctionCall`:
`response.includes('<function') || /function\s*=\s*[\w_]+/.test(response)`. -/
def hasMalformedFunctionCall (response : String) : Bool :=
  decide ("<function".data <:+: response.data) || fnEqSearch response.data

/-- Greedy-with-backtracking split of `\s+` followed by a nonempty run of
class `cls`, as a regex engine matches `\s+(cls+)` after a literal: try the
longest whitespace run first, shrink until the captured run is nonempty.
`l` is the text after the literal, the `Nat` argument the whitespace run
length still to try. -/
def tryCapture (cls : Char → Bool) (l : List Char) : Nat → Option (List Char)
  | 0 => none
  | w + 1 =>
    let cap := (l.drop (w + 1)).takeWhile cls
    if cap.isEmpty then tryCapture cls l w else some cap

/-- First match of `/play\s+(cls+)/i` scanning left to right; returns the
capture group. -/
def scanPlayCapture (cls : Char → Bool) : List Char → Option (List Char)
  | [] => none
  | c :: rest =>
    let here :=
      if (List.take 4 (c :: rest)).map Char.toLower = ['p', 'l', 'a', 'y'] then
        let after := List.drop 4 (c :: rest)
        tryCapture cls after ((after.takeWhile Char.isWhitespace).length)
      else none
    match here with
    | some cap => some cap
    | none => scanPlayCapture cls rest

/-- First match of `/"([^"]+)"/`; returns the capture group. -/
def scanQuoteCapture : List Char → Option (List Char)
  | [] => none
  | c :: rest =>
    let here :=
      if c = '"' then
        let cap := rest.takeWhile (fun d => d != '"')
        if cap.isEmpty then none
        else if (rest.drop cap.length).head? = some '"' then some cap else none
      else none
    match here with
    | some cap => some cap
    | none => scanQuoteCapture rest

/-- `ChatAgentService.extractSongName`: ordered pattern attempts —
`/play\s+([^"'}]+)/i` then `/"([^"]+)"/` on the malformed response, then
`/play\s+(.+)/i` on the original user message; empty string when all fail. -/
def extractSongName (response originalMessage : String) : String :=
  match scanPlayCapture (fun c => c != '"' && c != '\'' && c != '}') response.data with
  | some cap => strTrim ⟨cap⟩
  | none =>
    match scanQuoteCapture response.data with
    | some cap => strTrim ⟨cap⟩
    | none =>
      match scanPlayCapture (fun c => c != '\n' && c != '\r') originalMessage.data with
      | some cap => strTrim ⟨cap⟩
      | none => ""

/-- `ChatAgentService.manuallyInvokeSpotifyTool`: invoke the `spotify_control`
tool (an external oracle; `none` models the tool missing from `this.tools`,
`Except.error` a thrown invocation) with a reconstructed `play:` argument. -/
def manuallyInvokeSpotifyTool (spotifyTool : Option (String → Except String String))
    (songName : String) : String :=
  match spotifyTool with
  | some tool =>
    match tool ("play:" ++ songName) with
    | Except.ok toolResult => toolResult
    | Except.error _ =>
        "I'd like to play \"" ++ songName ++ "\" but I'm having trouble with the music system. Make sure you're logged into Spotify."
  | none =>
      "I'd like to play \"" ++ songName ++ "\" but I'm having trouble with the music system. Make sure you're logged into Spotify."

/-- `ChatAgentService.handleMalformedMusicRequest`. -/
def handleMalformedMusicRequest (spotifyTool : Option (String → Except String String))
    (response : String) (request : AgentRequest) : String :=
  let songName := extractSongName response request.message
  if songName != "" then manuallyInvokeSpotifyTool spotifyTool songName
  else "I had trouble with that music request. Make sure you're logged into Spotify and try something like \"play Bohemian Rhapsody\"."

/-- `ChatAgentService.handleMalformedFunctionCall`: heuristic recovery for a
response that carries an inline pseudo-markup tool call. -/
def handleMalformedFunctionCall (spotifyTool : Option (String → Except String String))
    (response : String) (request : AgentRequest) : String :=
  if isMusicRequest request.message then
    handleMalformedMusicRequest spotifyTool response request
  else "I encountered an issue processing your request. Please try rephrasing it."

/-- The loop state of the agent-path streaming reconciler in `streamMessage`:
the previously seen candidate (`lastChunkContent`), the accumulated committed
text (`fullResponse`), and the fragments yielded so far. -/
structure ReconcilerState where
  lastChunkContent : String
  fullResponse : String
  emitted : List String
deriving DecidableEq, Repr

/-- One reconciler step on a derived candidate full-text: if the candidate is
nonempty and differs from the previous one, emit
`chunkContent.slice(lastChunkContent.length)` when that suffix is nonempty and
update the previous candidate; otherwise do nothing. -/
def candStep (st : ReconcilerState) (chunkContent : String) : ReconcilerState :=
  if chunkContent != "" && chunkContent != st.lastChunkContent then
    let newContent := strDrop chunkContent st.lastChunkContent.length
    if newContent != "" then
      ⟨chunkContent, st.fullResponse ++ newContent, st.emitted ++ [newContent]⟩
    else st
  else st

/-- The candidate scan inside the agent-path streaming loop: last message that
is an `AIMessage` with falsy `tool_calls` and nonempty (trimmed) content;
empty string when none qualifies. -/
def deriveCandidate (msgs : List BaseMessage) : String :=
  match msgs.reverse.find?
      (fun m => m.kind == MsgKind.ai && !m.toolCalls && strTrim m.content != "") with
  | some m => strTrim m.content
  | none => ""

/-- One agent-path snapshot (`chunk.messages`) processed by the streaming
loop. -/
def agentSnapshotStep (st : ReconcilerState) (msgs : List BaseMessage) : ReconcilerState :=
  if msgs.length > 0 then candStep st (deriveCandidate msgs) else st

/-- The fixed user-safe text yielded by `streamMessage`'s catch block. -/
def streamErrorMsg : String := "Sorry, I encountered an error while processing your message."

/-- `ChatAgentService.streamMessage` as the sequence of yielded fragments,
the resulting session store, and the backend calls made. A stream failure
(`some _`) aborts emission after the delivered events, yields the fixed error
text, and skips the memory commit. -/
def streamMessage (be : Backend) (toolCount : Nat) (dateTime : String) (timestamp : Nat)
    (st : SessionMemories) (request : AgentRequest) (sessionId : String) :
    List String × SessionMemories × List BackendCall :=
  let hs := getOrCreateMemory st sessionId
  match buildMessageChain request hs.1 dateTime with
  | none => ([streamErrorMsg], hs.2, [])
  | some messages =>
    if toolCount = 0 then
      let r := be.streamModel messages
      let frags := r.1.filter (fun c => c != "")
      let fullResponse := strConcat frags
      match r.2 with
      | some _ => (frags ++ [streamErrorMsg], hs.2, [BackendCall.modelStream messages])
      | none =>
          (frags,
           if fullResponse != "" then
             saveToMemory hs.2 sessionId request.message fullResponse timestamp
           else hs.2,
           [BackendCall.modelStream messages])
    else
      let r := be.streamAgent messages
      let fin := r.1.foldl agentSnapshotStep ⟨"", "", []⟩
      match r.2 with
      | some _ => (fin.emitted ++ [streamErrorMsg], hs.2, [BackendCall.agentStream messages])
      | none =>
          (fin.emitted,
           if fin.fullResponse != "" then
             saveToMemory hs.2 sessionId request.message fin.fullResponse timestamp
           else hs.2,
           [BackendCall.agentStream messages])

/-- The request body as `ChatController` receives it (`mood` is `none` when
absent or not a number). -/
structure ChatRequestBody where
  message : String
  personality : String
  mood : Option ℚ
deriving DecidableEq, Repr

/-- `ChatController.validateChatRequest`. -/
def validateChatRequest (r : ChatRequestBody) : Option String :=
  if r.message = "" ∨ r.personality = "" ∨ r.mood.isNone then
    some "Missing required fields: message, personality, mood"
  else if r.mood.getD 0 < 0 ∨ 100 < r.mood.getD 0 then
    some "Mood must be between 0 and 100"
  else if (PERSONALITY_CONFIGS r.personality).isNone then
    some "Invalid personality mode"
  else none

/-- `StreamChunk` from `src/types/index.ts` as written to the SSE wire. -/
inductive SseEvent where
  | start (personality : String)
  | chunk (content : String)
  | ended (personality : String) (confidence : ℚ) (responseTime : Nat)
  | error (content : String)
deriving DecidableEq, Repr

/-- Is this an `error`-typed stream event? -/
def isErrorEvent : SseEvent → Bool
  | SseEvent.error _ => true
  | _ => false

/-- `ChatController.handleStreamingResponse`: a `start` event, one `chunk`
event per yielded fragment, then an `end` event; the controller's own catch
(the only writer of an `error` event) fires only if the generator throws,
which `streamMessage`'s internal catch prevents. -/
def handleStreamingResponse (be : Backend) (toolCount : Nat) (dateTime : String)
    (rand : ℚ) (elapsed timestamp : Nat) (st : SessionMemories) (request : AgentRequest)
    (sessionId : String) : List SseEvent × SessionMemories × List BackendCall :=
  let r := streamMessage be toolCount dateTime timestamp st request sessionId
  (SseEvent.start request.personality
      :: (r.1.map SseEvent.chunk
        ++ [SseEvent.ended request.personality (85/100 + rand * (15/100)) elapsed]),
   r.2.1, r.2.2)

/-- The controller-level outcome of `ChatController.processChat`. -/
inductive ChatOutcome where
  | badRequest (error : String)
  | json (resp : AgentResponse)
  | sse (events : List SseEvent)
deriving DecidableEq, Repr

/-- `ChatController.processChat`: validate the body, then dispatch to the
streaming or regular handler; a validation failure returns a 400 with the
error before anything else runs. -/
def processChat (be : Backend) (toolCount : Nat) (dateTime : String) (rand : ℚ)
    (elapsed timestamp : Nat) (st : SessionMemories) (body : ChatRequestBody)
    (sessionId : String) (wantsStream : Bool) :
    ChatOutcome × SessionMemories × List BackendCall :=
  match validateChatRequest body with
  | some e => (ChatOutcome.badRequest e, st, [])
  | none =>
    let request : AgentRequest := ⟨body.message, body.personality, body.mood.getD 0⟩
    if wantsStream then
      let r := handleStreamingResponse be toolCount dateTime rand elapsed timestamp st
        request sessionId
      (ChatOutcome.sse r.1, r.2.1, r.2.2)
    else
      let r := processMessage be toolCount dateTime rand elapsed timestamp st
        request sessionId
      (ChatOutcome.json r.1, r.2.1, r.2.2)

/-! ### Session memory store lemmas -/

theorem memGet_memSet_self (m : SessionMemories) (k : String)
    (v : List ConversationMessage) : memGet (memSet m k v) k = some v := by
  induction m with
  | nil => simp [memSet, memGet]
  | cons hd tl ih =>
    obtain ⟨k', v'⟩ := hd
    by_cases h : k' = k
    · simp [memSet, memGet, h]
    · simp [memSet, memGet, h, ih]

/-- The user/assistant pair one `saveToMemory` call appends. -/
def pairOf : TurnInput → List ConversationMessage
  | (u, a, t) => [⟨Role.user, u, t⟩, ⟨Role.assistant, a, t⟩]

theorem histStep_eq (h : List ConversationMessage) (x : TurnInput) :
    histStep h x =
      (h ++ pairOf x).drop ((h ++ pairOf x).length - MAX_HISTORY_LENGTH) := by
  obtain ⟨u, a, t⟩ := x
  simp only [histStep, pairOf]
  by_cases hc :
      (h ++ [(⟨Role.user, u, t⟩ : ConversationMessage), ⟨Role.assistant, a, t⟩]).length
        > MAX_HISTORY_LENGTH
  · rw [if_pos hc]
  · rw [if_neg hc]
    have h0 :
        (h ++ [(⟨Role.user, u, t⟩ : ConversationMessage), ⟨Role.assistant, a, t⟩]).length
          - MAX_HISTORY_LENGTH = 0 := by omega
    rw [h0, List.drop_zero]

theorem getHistory_saveToMemory (m : SessionMemories) (sid u a : String) (t : Nat)
    (h : sid ≠ "") :
    getHistory (saveToMemory m sid u a t) sid = histStep (getHistory m sid) (u, a, t) := by
  unfold saveToMemory getHistory histStep
  rw [if_neg h]
  simp [memGet_memSet_self]

theorem getHistory_applyTurns (ops : List TurnInput) (m : SessionMemories) (sid : String)
    (h : sid ≠ "") :
    getHistory (applyTurns m sid ops) sid = ops.foldl histStep (getHistory m sid) := by
  induction ops generalizing m with
  | nil => rfl
  | cons op rest ih =>
    obtain ⟨u, a, t⟩ := op
    show getHistory (applyTurns (saveToMemory m sid u a t) sid rest) sid = _
    rw [ih (saveToMemory m sid u a t), List.foldl_cons,
      getHistory_saveToMemory m sid u a t h]

theorem histStep_takeRightH (A : List ConversationMessage) (x : TurnInput) :
    histStep (takeRightH A) x = takeRightH (A ++ pairOf x) := by
  rw [histStep_eq]
  unfold takeRightH
  obtain ⟨u, a, t⟩ := x
  have hM : MAX_HISTORY_LENGTH = 20 := rfl
  have hp : (pairOf (u, a, t)).length = 2 := rfl
  by_cases hn : A.length ≤ MAX_HISTORY_LENGTH
  · have h0 : A.length - MAX_HISTORY_LENGTH = 0 := by omega
    rw [h0, List.drop_zero]
  · have hlen : (A.drop (A.length - MAX_HISTORY_LENGTH)).length = MAX_HISTORY_LENGTH := by
      rw [List.length_drop]; omega
    have hL : (A.drop (A.length - MAX_HISTORY_LENGTH) ++ pairOf (u, a, t)).length
        - MAX_HISTORY_LENGTH = 2 := by
      rw [List.length_append, hlen, hp]; omega
    have hR : (A ++ pairOf (u, a, t)).length - MAX_HISTORY_LENGTH
        = A.length - MAX_HISTORY_LENGTH + 2 := by
      rw [List.length_append, hp]; omega
    rw [hL, hR,
      List.drop_append_of_le_length (by rw [hlen]; omega),
      List.drop_append_of_le_length (by omega),
      List.drop_drop]

theorem foldl_histStep_takeRightH (ops : List TurnInput) :
    ∀ A : List ConversationMessage,
      ops.foldl histStep (takeRightH A) = takeRightH (A ++ flatTurns ops) := by
  induction ops with
  | nil => intro A; simp [flatTurns]
  | cons op rest ih =>
    intro A
    rw [List.foldl_cons, histStep_takeRightH, ih (A ++ pairOf op)]
    obtain ⟨u, a, t⟩ := op
    simp [flatTurns, pairOf, List.append_assoc]

/-- For a fresh store and a single session, the stored history after any turn
sequence is the suffix of the full chronological message sequence that fits
under the cap. -/
theorem getHistory_applyTurns_nil (ops : List TurnInput) (sid : String) (h : sid ≠ "") :
    getHistory (applyTurns [] sid ops) sid = takeRightH (flatTurns ops) := by
  rw [getHistory_applyTurns ops [] sid h]
  have h1 : getHistory [] sid = takeRightH [] := rfl
  rw [h1, foldl_histStep_takeRightH ops []]
  rfl

/-- C1: For every session identifier and every sequence of N append operations
(`saveToMemory` calls with a non-empty session id), the stored history for
that session is exactly the suffix of the full chronological message sequence
that fits under the 20-message cap — i.e. at most 20 messages, and exactly the
most recent ones appended, in original order. -/
theorem saveToMemory_history_cap (ops : List TurnInput) (sid : String) (h : sid ≠ "") :
    getHistory (applyTurns [] sid ops) sid = takeRightH (flatTurns ops)
      ∧ (getHistory (applyTurns [] sid ops) sid).length ≤ 20 := by
  have h1 := getHistory_applyTurns_nil ops sid h
  refine ⟨h1, ?_⟩
  rw [h1]
  unfold takeRightH
  rw [List.length_drop]
  have h2 : MAX_HISTORY_LENGTH = 20 := rfl
  omega

/-- Witness for C1 at a concrete 12-turn input (24 appended messages, so the
cap is exercised). -/
theorem saveToMemory_history_cap_witness :
    ("s1" ≠ "") ∧
      (getHistory (applyTurns [] "s1"
          [("u1", "a1", 1), ("u2", "a2", 2), ("u3", "a3", 3), ("u4", "a4", 4),
           ("u5", "a5", 5), ("u6", "a6", 6), ("u7", "a7", 7), ("u8", "a8", 8),
           ("u9", "a9", 9), ("u10", "a10", 10), ("u11", "a11", 11), ("u12", "a12", 12)]) "s1"
        = takeRightH (flatTurns
          [("u1", "a1", 1), ("u2", "a2", 2), ("u3", "a3", 3), ("u4", "a4", 4),
           ("u5", "a5", 5), ("u6", "a6", 6), ("u7", "a7", 7), ("u8", "a8", 8),
           ("u9", "a9", 9), ("u10", "a10", 10), ("u11", "a11", 11), ("u12", "a12", 12)])
      ∧ (getHistory (applyTurns [] "s1"
          [("u1", "a1", 1), ("u2", "a2", 2), ("u3", "a3", 3), ("u4", "a4", 4),
           ("u5", "a5", 5), ("u6", "a6", 6), ("u7", "a7", 7), ("u8", "a8", 8),
           ("u9", "a9", 9), ("u10", "a10", 10), ("u11", "a11", 11), ("u12", "a12", 12)]) "s1").length ≤ 20) :=
  ⟨by decide,
   saveToMemory_history_cap
     [("u1", "a1", 1), ("u2", "a2", 2), ("u3", "a3", 3), ("u4", "a4", 4),
      ("u5", "a5", 5), ("u6", "a6", 6), ("u7", "a7", 7), ("u8", "a8", 8),
      ("u9", "a9", 9), ("u10", "a10", 10), ("u11", "a11", 11), ("u12", "a12", 12)]
     "s1" (by decide)⟩

/-! ### C10: pair-shape invariant of stored histories -/

/-- A history made of whole (user, assistant) pairs: even length, roles
strictly alternating starting with `user`, and the two messages of each pair
carrying the same timestamp. -/
def pairShape : List ConversationMessage → Bool
  | [] => true
  | [_] => false
  | u :: a :: rest =>
      u.role == Role.user && a.role == Role.assistant
        && u.timestamp == a.timestamp && pairShape rest

theorem pairShape_flatTurns (ops : List TurnInput) : pairShape (flatTurns ops) = true := by
  induction ops with
  | nil => rfl
  | cons op rest ih =>
    obtain ⟨u, a, t⟩ := op
    simp [flatTurns, pairShape, ih]

theorem pairShape_drop_two (l : List ConversationMessage) (h : pairShape l = true) :
    pairShape (l.drop 2) = true := by
  match l with
  | [] => simpa using h
  | [x] => simp [pairShape] at h
  | u :: a :: rest =>
    simp only [pairShape, Bool.and_eq_true] at h
    simpa using h.2

theorem pairShape_drop_even (k : Nat) :
    ∀ l : List ConversationMessage, pairShape l = true → pairShape (l.drop (2 * k)) = true := by
  induction k with
  | zero => intro l h; simpa using h
  | succ n ih =>
    intro l h
    have e : (l.drop 2).drop (2 * n) = l.drop (2 * (n + 1)) := by
      rw [List.drop_drop]
      congr 1
      omega
    rw [← e]
    exact ih _ (pairShape_drop_two l h)

theorem pairShape_even :
    ∀ l : List ConversationMessage, pairShape l = true → l.length % 2 = 0
  | [], _ => rfl
  | [_], h => by simp [pairShape] at h
  | _ :: _ :: rest, h => by
    have hr : pairShape rest = true := by
      simp only [pairShape, Bool.and_eq_true] at h
      exact h.2
    have := pairShape_even rest hr
    simp only [List.length_cons]
    omega

theorem flatTurns_length (ops : List TurnInput) :
    (flatTurns ops).length = 2 * ops.length := by
  induction ops with
  | nil => rfl
  | cons op rest ih =>
    obtain ⟨u, a, t⟩ := op
    simp [flatTurns, ih]
    omega

/-- C10: After any sequence of append operations for a non-empty session id,
the stored history has even length and is built of whole (user, assistant)
pairs — strictly alternating roles starting with a user message, with
identical timestamps inside each pair (the cap trim removes a whole number of
leading pairs, so the shape survives it). -/
theorem saveToMemory_pairShape (ops : List TurnInput) (sid : String) (h : sid ≠ "") :
    pairShape (getHistory (applyTurns [] sid ops) sid) = true
      ∧ (getHistory (applyTurns [] sid ops) sid).length % 2 = 0 := by
  have h1 := getHistory_applyTurns_nil ops sid h
  have h2 : pairShape (takeRightH (flatTurns ops)) = true := by
    unfold takeRightH
    have e : (flatTurns ops).length - MAX_HISTORY_LENGTH = 2 * (ops.length - 10) := by
      rw [flatTurns_length]
      have : MAX_HISTORY_LENGTH = 20 := rfl
      omega
    rw [e]
    exact pairShape_drop_even _ _ (pairShape_flatTurns ops)
  rw [h1]
  exact ⟨h2, pairShape_even _ h2⟩

/-- Witness for C10 at a concrete 11-turn input crossing the cap. -/
theorem saveToMemory_pairShape_witness :
    ("sess" ≠ "") ∧
      (pairShape (getHistory (applyTurns [] "sess"
          [("a", "b", 1), ("c", "d", 2), ("e", "f", 3), ("g", "h", 4), ("i", "j", 5),
           ("k", "l", 6), ("m", "n", 7), ("o", "p", 8), ("q", "r", 9), ("s", "t", 10),
           ("u", "v", 11)]) "sess") = true
        ∧ (getHistory (applyTurns [] "sess"
          [("a", "b", 1), ("c", "d", 2), ("e", "f", 3), ("g", "h", 4), ("i", "j", 5),
           ("k", "l", 6), ("m", "n", 7), ("o", "p", 8), ("q", "r", 9), ("s", "t", 10),
           ("u", "v", 11)]) "sess").length % 2 = 0) :=
  ⟨by decide,
   saveToMemory_pairShape
     [("a", "b", 1), ("c", "d", 2), ("e", "f", 3), ("g", "h", 4), ("i", "j", 5),
      ("k", "l", 6), ("m", "n", 7), ("o", "p", 8), ("q", "r", 9), ("s", "t", 10),
      ("u", "v", 11)] "sess" (by decide)⟩

/-! ### C8: mood bucketing -/

/-- C8: Mood bucketing is a pure total function of the mood scalar: on
`[0, 100]`, `mood <= 30` selects the low tier, `30 < mood <= 70` the medium
tier, `mood > 70` the high tier; in particular 0 and 30 give low, 31 and 70
give medium, 71 and 100 give high. -/
theorem moodLevel_bucketing (mood : ℚ) (h0 : 0 ≤ mood) (h1 : mood ≤ 100) :
    ((mood ≤ 30 → moodLevel mood = MoodTier.low)
      ∧ (30 < mood → mood ≤ 70 → moodLevel mood = MoodTier.medium)
      ∧ (70 < mood → moodLevel mood = MoodTier.high))
    ∧ moodLevel 0 = MoodTier.low ∧ moodLevel 30 = MoodTier.low
    ∧ moodLevel 31 = MoodTier.medium ∧ moodLevel 70 = MoodTier.medium
    ∧ moodLevel 71 = MoodTier.high ∧ moodLevel 100 = MoodTier.high := by
  refine ⟨⟨?_, ?_, ?_⟩, by decide, by decide, by decide, by decide, by decide, by decide⟩
  · intro h
    unfold moodLevel
    rw [if_pos h]
  · intro h2 h3
    unfold moodLevel
    rw [if_neg (not_le.mpr h2), if_pos h3]
  · intro h2
    unfold moodLevel
    rw [if_neg (not_le.mpr (lt_trans (by norm_num) h2)),
      if_neg (not_le.mpr h2)]

/-- Witness for C8 at `mood = 31`. -/
theorem moodLevel_bucketing_witness :
    (0 ≤ (31 : ℚ)) ∧ ((31 : ℚ) ≤ 100) ∧
      ((((31 : ℚ) ≤ 30 → moodLevel 31 = MoodTier.low)
        ∧ (30 < (31 : ℚ) → (31 : ℚ) ≤ 70 → moodLevel 31 = MoodTier.medium)
        ∧ (70 < (31 : ℚ) → moodLevel 31 = MoodTier.high))
      ∧ moodLevel 0 = MoodTier.low ∧ moodLevel 30 = MoodTier.low
      ∧ moodLevel 31 = MoodTier.medium ∧ moodLevel 70 = MoodTier.medium
      ∧ moodLevel 71 = MoodTier.high ∧ moodLevel 100 = MoodTier.high) :=
  ⟨by norm_num, by norm_num, moodLevel_bucketing 31 (by norm_num) (by norm_num)⟩

/-! ### C7: unknown personality id is rejected before any backend call -/

/-- C7: A request whose personality id does not resolve to a known personality
config is rejected by `processChat` with a structured validation error: the
outcome is a 400 `badRequest`, the session store is untouched, and no backend
call of any kind is made. -/
theorem processChat_unknown_personality (be : Backend) (toolCount : Nat)
    (dateTime : String) (rand : ℚ) (elapsed timestamp : Nat) (st : SessionMemories)
    (body : ChatRequestBody) (sessionId : String) (wantsStream : Bool)
    (h : PERSONALITY_CONFIGS body.personality = none) :
    ∃ e, processChat be toolCount dateTime rand elapsed timestamp st body sessionId
      wantsStream = (ChatOutcome.badRequest e, st, []) := by
  cases hv : validateChatRequest body with
  | some e =>
    refine ⟨e, ?_⟩
    unfold processChat
    rw [hv]
  | none =>
    exfalso
    unfold validateChatRequest at hv
    by_cases h1 : body.message = "" ∨ body.personality = "" ∨ body.mood.isNone = true
    · rw [if_pos h1] at hv; cases hv
    · rw [if_neg h1] at hv
      by_cases h2 : body.mood.getD 0 < 0 ∨ 100 < body.mood.getD 0
      · rw [if_pos h2] at hv; cases hv
      · rw [if_neg h2] at hv
        by_cases h3 : (PERSONALITY_CONFIGS body.personality).isNone = true
        · rw [if_pos h3] at hv; cases hv
        · exact h3 (by rw [h]; rfl)

/-- A fixed concrete backend used only to instantiate witness and
counterexample theorems. -/
def witnessBackend : Backend :=
  { invokeModel := fun _ => Except.ok ⟨MsgKind.ai, "direct answer", false⟩
    invokeAgent := fun _ => Except.error "agent exploded"
    streamModel := fun _ => (["Hel"], some "stream exploded")
    streamAgent := fun _ => ([[⟨MsgKind.ai, "Hi", false⟩]], none) }

/-- Witness for C7: the unknown personality id `"pirate"`. -/
theorem processChat_unknown_personality_witness :
    (PERSONALITY_CONFIGS "pirate" = none) ∧
      ∃ e, processChat witnessBackend 3 "dt" 0 5 7 ([] : SessionMemories)
        ⟨"hello", "pirate", some 50⟩ "s1" false
        = (ChatOutcome.badRequest e, ([] : SessionMemories), []) :=
  ⟨by decide,
   processChat_unknown_personality witnessBackend 3 "dt" 0 5 7 []
     ⟨"hello", "pirate", some 50⟩ "s1" false (by decide)⟩

/-! ### C9: loading history inserts a fresh session entry -/

theorem memSet_size_absent (m : SessionMemories) (k : String)
    (v : List ConversationMessage) (h : memGet m k = none) :
    memSize (memSet m k v) = memSize m + 1 := by
  induction m with
  | nil => rfl
  | cons hd tl ih =>
    obtain ⟨k', v'⟩ := hd
    by_cases hk : k' = k
    · unfold memGet at h
      rw [if_pos hk] at h
      cases h
    · unfold memGet at h
      rw [if_neg hk] at h
      show (memSet ((k', v') :: tl) k v).length = _
      unfold memSet
      rw [if_neg hk]
      exact congrArg (· + 1) (ih h)

theorem memSet_size_present (m : SessionMemories) (k : String)
    (v : List ConversationMessage) (h : (memGet m k).isSome = true) :
    memSize (memSet m k v) = memSize m := by
  induction m with
  | nil => simp [memGet] at h
  | cons hd tl ih =>
    obtain ⟨k', v'⟩ := hd
    by_cases hk : k' = k
    · show (memSet ((k', v') :: tl) k v).length = _
      unfold memSet
      rw [if_pos hk]
      rfl
    · unfold memGet at h
      rw [if_neg hk] at h
      show (memSet ((k', v') :: tl) k v).length = _
      unfold memSet
      rw [if_neg hk]
      exact congrArg (· + 1) (ih h)

theorem saveToMemory_size (m : SessionMemories) (sid u a : String) (t : Nat)
    (hp : (memGet m (getMemoryKey sid)).isSome = true) :
    memSize (saveToMemory m sid u a t) = memSize m := by
  unfold saveToMemory
  by_cases h : sid = ""
  · rw [if_pos h]
  · rw [if_neg h]
    exact memSet_size_present _ _ _ hp

theorem getOrCreateMemory_fresh (st : SessionMemories) (sessionId : String)
    (hs : sessionId ≠ "") (habs : memGet st (getMemoryKey sessionId) = none) :
    getOrCreateMemory st sessionId = ([], memSet st (getMemoryKey sessionId) []) := by
  simp only [getOrCreateMemory, if_neg hs, habs]

/-- C9 counterexample: a `processMessage` call with a non-empty, untracked
session id but an invalid request (empty message) fails validation before
`getOrCreateMemory` runs — no session entry is inserted and the tracked-session
count stays 0, so the claim does not hold for *every* call. -/
theorem processMessage_invalid_no_insert :
    processMessage witnessBackend 3 "dt" 0 0 0 ([] : SessionMemories)
        ⟨"", "default", 50⟩ "s9"
      = ({ message := "I encountered an issue: Message cannot be empty. Please try rephrasing your request."
           personality := "default"
           confidence := 1/2
           responseTime := 0 }, ([] : SessionMemories), [])
    ∧ memSize (processMessage witnessBackend 3 "dt" 0 0 0 ([] : SessionMemories)
        ⟨"", "default", 50⟩ "s9").2.1 = 0 :=
  ⟨rfl, rfl⟩

/-- C9 (amended): for `streamMessage` unconditionally, and for
`processMessage` whenever the request passes the in-service validation
(non-empty trimmed message and personality), a call with a non-empty untracked
session id inserts an entry for that session before any backend call, so the
tracked-session count grows by one no matter how the request ends
(prompt-build failure, backend error, or success). -/
theorem memory_inserted_on_entry (be : Backend) (toolCount : Nat) (dateTime : String)
    (rand : ℚ) (elapsed timestamp : Nat) (st : SessionMemories) (request : AgentRequest)
    (sessionId : String) (hs : sessionId ≠ "")
    (habs : memGet st (getMemoryKey sessionId) = none) :
    (validateRequest request = none →
      memSize (processMessage be toolCount dateTime rand elapsed timestamp st request
        sessionId).2.1 = memSize st + 1)
    ∧ memSize (streamMessage be toolCount dateTime timestamp st request sessionId).2.1
        = memSize st + 1 := by
  have hg := getOrCreateMemory_fresh st sessionId hs habs
  have hsize : memSize (memSet st (getMemoryKey sessionId) []) = memSize st + 1 :=
    memSet_size_absent st _ [] habs
  have hpresent : (memGet (memSet st (getMemoryKey sessionId) [])
      (getMemoryKey sessionId)).isSome = true := by
    rw [memGet_memSet_self]; rfl
  have hsave : ∀ u a t, memSize (saveToMemory (memSet st (getMemoryKey sessionId) [])
      sessionId u a t) = memSize st + 1 := by
    intro u a t
    rw [saveToMemory_size _ _ _ _ _ hpresent, hsize]
  constructor
  · intro hv
    simp only [processMessage, hv, hg]
    split
    · exact hsize
    · split
      · exact hsize
      · exact hsave _ _ _
  · simp only [streamMessage, hg]
    split
    · exact hsize
    · split
      · split
        · exact hsize
        · split
          · exact hsave _ _ _
          · exact hsize
      · split
        · exact hsize
        · split
          · exact hsave _ _ _
          · exact hsize

/-- Witness for C9 (amended) at a concrete fresh session. -/
theorem memory_inserted_on_entry_witness :
    ("w9" ≠ "") ∧ (memGet ([] : SessionMemories) (getMemoryKey "w9") = none) ∧
      ((validateRequest ⟨"hello", "default", 50⟩ = none →
        memSize (processMessage witnessBackend 3 "dt" 0 1 2 ([] : SessionMemories)
          ⟨"hello", "default", 50⟩ "w9").2.1 = memSize ([] : SessionMemories) + 1)
      ∧ memSize (streamMessage witnessBackend 3 "dt" 2 ([] : SessionMemories)
          ⟨"hello", "default", 50⟩ "w9").2.1 = memSize ([] : SessionMemories) + 1) :=
  ⟨by decide, by decide,
   memory_inserted_on_entry witnessBackend 3 "dt" 0 1 2 [] ⟨"hello", "default", 50⟩
     "w9" (by decide) (by decide)⟩

/-! ### C6: agent failure falls back to the direct model path -/

/-- C6: For a valid request with tools registered, if the agent invocation
throws, `processMessage` still returns a well-formed `AgentResponse` (no
exception escapes), and when the fallback direct model call succeeds the
response is derived from that direct call, which receives exactly the same
message list that was passed to the agent (both recorded calls carry
`messages`). -/
theorem processMessage_agent_fallback (be : Backend) (toolCount : Nat)
    (dateTime : String) (rand : ℚ) (elapsed timestamp : Nat) (st : SessionMemories)
    (request : AgentRequest) (sessionId : String) (messages : List BaseMessage)
    (err : String) (m : BaseMessage)
    (hv : validateRequest request = none)
    (hb : buildMessageChain request (getOrCreateMemory st sessionId).1 dateTime
      = some messages)
    (ht : toolCount ≠ 0)
    (ha : be.invokeAgent messages = Except.error err)
    (hm : be.invokeModel messages = Except.ok m) :
    processMessage be toolCount dateTime rand elapsed timestamp st request sessionId
      = ({ message := extractFinalResponse [m]
           personality := request.personality
           confidence := DEFAULT_CONFIDENCE + rand * (15/100)
           responseTime := elapsed },
         saveToMemory (getOrCreateMemory st sessionId).2 sessionId request.message
           (extractFinalResponse [m]) timestamp,
         [BackendCall.agent messages, BackendCall.model messages]) := by
  simp only [processMessage, hv, hb, if_neg ht, processWithAgent, ha, hm]

/-- Witness for C6: concrete backend whose agent throws and whose direct model
answers; the fallback response carries the direct answer. -/
theorem processMessage_agent_fallback_witness :
    (validateRequest ⟨"hello", "default", 50⟩ = none)
    ∧ (buildMessageChain ⟨"hello", "default", 50⟩
        (getOrCreateMemory ([] : SessionMemories) "w6").1 "dt"
        = some ((buildMessageChain ⟨"hello", "default", 50⟩
            (getOrCreateMemory ([] : SessionMemories) "w6").1 "dt").getD []))
    ∧ ((3 : Nat) ≠ 0)
    ∧ (witnessBackend.invokeAgent ((buildMessageChain ⟨"hello", "default", 50⟩
        (getOrCreateMemory ([] : SessionMemories) "w6").1 "dt").getD [])
        = Except.error "agent exploded")
    ∧ (witnessBackend.invokeModel ((buildMessageChain ⟨"hello", "default", 50⟩
        (getOrCreateMemory ([] : SessionMemories) "w6").1 "dt").getD [])
        = Except.ok ⟨MsgKind.ai, "direct answer", false⟩)
    ∧ processMessage witnessBackend 3 "dt" 0 4 9 ([] : SessionMemories)
        ⟨"hello", "default", 50⟩ "w6"
      = ({ message := extractFinalResponse [⟨MsgKind.ai, "direct answer", false⟩]
           personality := "default"
           confidence := DEFAULT_CONFIDENCE + 0 * (15/100)
           responseTime := 4 },
         saveToMemory (getOrCreateMemory ([] : SessionMemories) "w6").2 "w6" "hello"
           (extractFinalResponse [⟨MsgKind.ai, "direct answer", false⟩]) 9,
         [BackendCall.agent ((buildMessageChain ⟨"hello", "default", 50⟩
             (getOrCreateMemory ([] : SessionMemories) "w6").1 "dt").getD []),
          BackendCall.model ((buildMessageChain ⟨"hello", "default", 50⟩
             (getOrCreateMemory ([] : SessionMemories) "w6").1 "dt").getD [])]) :=
  ⟨by decide, rfl, by decide, rfl, rfl,
   processMessage_agent_fallback witnessBackend 3 "dt" 0 4 9 [] ⟨"hello", "default", 50⟩
     "w6" ((buildMessageChain ⟨"hello", "default", 50⟩
       (getOrCreateMemory ([] : SessionMemories) "w6").1 "dt").getD [])
     "agent exploded" ⟨MsgKind.ai, "direct answer", false⟩
     (by decide) rfl (by decide) rfl rfl⟩

/-! ### C2: the malformed tool-call recovery step is never executed -/

/-- A concrete backend whose agent path returns a malformed pseudo-markup tool
call as its final text (used by counterexample/witness theorems). -/
def malformedBackend : Backend :=
  { invokeModel := fun _ => Except.ok ⟨MsgKind.ai, "direct answer", false⟩
    invokeAgent := fun _ => Except.ok [⟨MsgKind.ai, "<function=web_search>", false⟩]
    streamModel := fun _ => ([], none)
    streamAgent := fun _ => ([], none) }

/-- C2 counterexample: for a request whose dispatched final text matches the
malformed pattern, `processMessage` returns and commits that text unchanged;
the detection/recovery helpers are never executed (the recovery result for
this input provably differs from the returned message). -/
theorem processMessage_no_malformed_recovery :
    (processMessage malformedBackend 3 "dt" 0 0 0 ([] : SessionMemories)
        ⟨"hello there", "default", 50⟩ "c2").1.message = "<function=web_search>"
    ∧ hasMalformedFunctionCall "<function=web_search>" = true
    ∧ getHistory (processMessage malformedBackend 3 "dt" 0 0 0 ([] : SessionMemories)
        ⟨"hello there", "default", 50⟩ "c2").2.1 "c2"
      = [⟨Role.user, "hello there", 0⟩, ⟨Role.assistant, "<function=web_search>", 0⟩]
    ∧ handleMalformedFunctionCall none "<function=web_search>"
        ⟨"hello there", "default", 50⟩ ≠ "<function=web_search>" :=
  ⟨rfl, by decide, rfl, by decide⟩

/-- C2 (amended): `processMessage` performs no malformed-tool-call detection
or recovery at all: whatever final text the dispatch produces is returned in
the Response and committed to memory unchanged, even when it matches the
malformed pattern (`hasMalformedFunctionCall`). -/
theorem processMessage_malformed_text_unchanged (be : Backend) (toolCount : Nat)
    (dateTime : String) (rand : ℚ) (elapsed timestamp : Nat) (st : SessionMemories)
    (request : AgentRequest) (sessionId : String) (messages respMsgs : List BaseMessage)
    (hv : validateRequest request = none)
    (hb : buildMessageChain request (getOrCreateMemory st sessionId).1 dateTime
      = some messages)
    (ht : toolCount ≠ 0)
    (ha : be.invokeAgent messages = Except.ok respMsgs)
    (hmal : hasMalformedFunctionCall (extractFinalResponse respMsgs) = true) :
    (processMessage be toolCount dateTime rand elapsed timestamp st request
        sessionId).1.message = extractFinalResponse respMsgs
    ∧ hasMalformedFunctionCall (processMessage be toolCount dateTime rand elapsed
        timestamp st request sessionId).1.message = true
    ∧ (processMessage be toolCount dateTime rand elapsed timestamp st request
        sessionId).2.1
      = saveToMemory (getOrCreateMemory st sessionId).2 sessionId request.message
          (extractFinalResponse respMsgs) timestamp := by
  simp only [processMessage, hv, hb, if_neg ht, processWithAgent, ha]
  exact ⟨trivial, hmal, trivial⟩

/-- Witness for C2 (amended) at the concrete malformed backend. -/
theorem processMessage_malformed_text_unchanged_witness :
    (validateRequest ⟨"hello there", "default", 50⟩ = none)
    ∧ (buildMessageChain ⟨"hello there", "default", 50⟩
        (getOrCreateMemory ([] : SessionMemories) "w2").1 "dt"
        = some ((buildMessageChain ⟨"hello there", "default", 50⟩
            (getOrCreateMemory ([] : SessionMemories) "w2").1 "dt").getD []))
    ∧ ((3 : Nat) ≠ 0)
    ∧ (malformedBackend.invokeAgent ((buildMessageChain ⟨"hello there", "default", 50⟩
        (getOrCreateMemory ([] : SessionMemories) "w2").1 "dt").getD [])
        = Except.ok [⟨MsgKind.ai, "<function=web_search>", false⟩])
    ∧ (hasMalformedFunctionCall
        (extractFinalResponse [⟨MsgKind.ai, "<function=web_search>", false⟩]) = true)
    ∧ ((processMessage malformedBackend 3 "dt" 0 2 3 ([] : SessionMemories)
          ⟨"hello there", "default", 50⟩ "w2").1.message
        = extractFinalResponse [⟨MsgKind.ai, "<function=web_search>", false⟩]
      ∧ hasMalformedFunctionCall (processMessage malformedBackend 3 "dt" 0 2 3
          ([] : SessionMemories) ⟨"hello there", "default", 50⟩ "w2").1.message = true
      ∧ (processMessage malformedBackend 3 "dt" 0 2 3 ([] : SessionMemories)
          ⟨"hello there", "default", 50⟩ "w2").2.1
        = saveToMemory (getOrCreateMemory ([] : SessionMemories) "w2").2 "w2"
            "hello there"
            (extractFinalResponse [⟨MsgKind.ai, "<function=web_search>", false⟩]) 3) :=
  ⟨by decide, rfl, by decide, rfl, by decide,
   processMessage_malformed_text_unchanged malformedBackend 3 "dt" 0 2 3 []
     ⟨"hello there", "default", 50⟩ "w2"
     ((buildMessageChain ⟨"hello there", "default", 50⟩
       (getOrCreateMemory ([] : SessionMemories) "w2").1 "dt").getD [])
     [⟨MsgKind.ai, "<function=web_search>", false⟩]
     (by decide) rfl (by decide) rfl (by decide)⟩

/-! ### C4: non-extension snapshots in the streaming reconciler -/

/-- A concrete agent-stream backend whose second snapshot revises the
candidate to a non-extension ("Hi there" then "Bye"). -/
def revisingAgentBackend : Backend :=
  { invokeModel := fun _ => Except.ok ⟨MsgKind.ai, "direct answer", false⟩
    invokeAgent := fun _ => Except.ok []
    streamModel := fun _ => ([], none)
    streamAgent := fun _ =>
      ([[⟨MsgKind.ai, "Hi there", false⟩], [⟨MsgKind.ai, "Bye", false⟩]], none) }

/-- C4 counterexample: when the new candidate "Bye" is not an extension of the
previous candidate "Hi there", the reconciler emits nothing for it (not the
full new candidate) and leaves its previous-candidate state unchanged, so the
claimed re-emission behaviour does not hold. -/
theorem reconciler_nonextension_drops :
    (streamMessage revisingAgentBackend 3 "dt" 0 ([] : SessionMemories)
        ⟨"hi", "default", 50⟩ "c4").1 = ["Hi there"]
    ∧ ([[⟨MsgKind.ai, "Hi there", false⟩], [⟨MsgKind.ai, "Bye", false⟩]].foldl
        agentSnapshotStep ⟨"", "", []⟩)
      = ⟨"Hi there", "Hi there", ["Hi there"]⟩ :=
  ⟨rfl, rfl⟩

/-- C4 (amended): on a candidate that differs from the previous one but does
not extend it, the reconciler emits only the positional suffix
`candidate.slice(previous.length)`: if the new candidate is no longer than the
previous one that suffix is empty, so nothing is emitted and the
previous-candidate state is unchanged; if it is longer, only that suffix (not
the full candidate) is emitted and the state is updated. The step is a total
function, so it cannot crash. -/
theorem candStep_nonextension (c₁ c₂ : String)
    (h1 : c₁ ≠ "") (h2 : c₂ ≠ "") (hne : c₂ ≠ c₁) :
    candStep ⟨"", "", []⟩ c₁ = ⟨c₁, c₁, [c₁]⟩
    ∧ (c₂.length ≤ c₁.length → candStep ⟨c₁, c₁, [c₁]⟩ c₂ = ⟨c₁, c₁, [c₁]⟩)
    ∧ (c₁.length < c₂.length → candStep ⟨c₁, c₁, [c₁]⟩ c₂
        = ⟨c₂, c₁ ++ strDrop c₂ c₁.length, [c₁, strDrop c₂ c₁.length]⟩) := by
  refine ⟨?_, ?_, ?_⟩
  · have e0 : strDrop c₁ 0 = c₁ := rfl
    simp [candStep, bne_iff_ne, h1, e0]
  · intro hlen
    have hlen' : c₂.data.length ≤ c₁.data.length := hlen
    have e2 : strDrop c₂ c₁.length = "" := by
      show (⟨c₂.data.drop c₁.data.length⟩ : String) = ""
      rw [List.drop_eq_nil_iff.mpr hlen']
    simp [candStep, bne_iff_ne, h2, hne, e2]
  · intro hlen
    have hlen' : c₁.data.length < c₂.data.length := hlen
    have e2 : strDrop c₂ c₁.length ≠ "" := by
      show (⟨c₂.data.drop c₁.data.length⟩ : String) ≠ ""
      intro hx
      have hd : c₂.data.drop c₁.data.length = [] := congrArg String.data hx
      rw [List.drop_eq_nil_iff] at hd
      omega
    simp [candStep, bne_iff_ne, h2, hne, e2]

/-- Witness for C4 (amended) at the concrete candidates "Hi there" / "Bye". -/
theorem candStep_nonextension_witness :
    ("Hi there" ≠ "") ∧ ("Bye" ≠ "") ∧ ("Bye" ≠ "Hi there") ∧
      (candStep ⟨"", "", []⟩ "Hi there" = ⟨"Hi there", "Hi there", ["Hi there"]⟩
      ∧ ("Bye".length ≤ "Hi there".length →
          candStep ⟨"Hi there", "Hi there", ["Hi there"]⟩ "Bye"
            = ⟨"Hi there", "Hi there", ["Hi there"]⟩)
      ∧ ("Hi there".length < "Bye".length →
          candStep ⟨"Hi there", "Hi there", ["Hi there"]⟩ "Bye"
            = ⟨"Bye", "Hi there" ++ strDrop "Bye" "Hi there".length,
               ["Hi there", strDrop "Bye" "Hi there".length]⟩)) :=
  ⟨by decide, by decide, by decide,
   candStep_nonextension "Hi there" "Bye" (by decide) (by decide) (by decide)⟩

/-! ### C3: mid-stream failure behaviour -/

theorem countP_isErrorEvent_map_chunk (l : List String) :
    (l.map SseEvent.chunk).countP isErrorEvent = 0 := by
  induction l with
  | nil => rfl
  | cons x xs ih => simp [List.countP_cons, isErrorEvent, ih]

/-- C3 counterexample: a direct-path stream that raises after emitting "Hel"
terminates with the fixed user-safe text delivered as an ordinary `chunk`
event followed by a normal `end` event — there is no `error`-typed event at
all — and the partial text is not committed (the fresh session's history stays
empty). This refutes the claimed single `error`-typed terminal event. -/
theorem streaming_error_as_chunk_event :
    (handleStreamingResponse witnessBackend 0 "dt" 0 6 0 ([] : SessionMemories)
        ⟨"hi", "default", 50⟩ "c3").1
      = [SseEvent.start "default", SseEvent.chunk "Hel", SseEvent.chunk streamErrorMsg,
         SseEvent.ended "default" (85/100 + 0 * (15/100)) 6]
    ∧ ((handleStreamingResponse witnessBackend 0 "dt" 0 6 0 ([] : SessionMemories)
        ⟨"hi", "default", 50⟩ "c3").1.countP isErrorEvent) = 0
    ∧ getHistory (handleStreamingResponse witnessBackend 0 "dt" 0 6 0
        ([] : SessionMemories) ⟨"hi", "default", 50⟩ "c3").2.1 "c3" = [] :=
  ⟨rfl, rfl, rfl⟩

/-- A concrete backend whose both stream paths fail after delivering partial
output (used to instantiate the C3 witness). -/
def failingStreamBackend : Backend :=
  { invokeModel := fun _ => Except.ok ⟨MsgKind.ai, "direct answer", false⟩
    invokeAgent := fun _ => Except.ok []
    streamModel := fun _ => (["Hel", "lo"], some "boom1")
    streamAgent := fun _ => ([[⟨MsgKind.ai, "Par", false⟩]], some "boom2") }

/-- C3 (amended): on a mid-stream failure (either path), emission stops after
the fragments already delivered, the fixed user-safe text is yielded as an
ordinary `chunk` event, the stream then closes with a normal `end` event —
never an `error`-typed event — and no partial accumulated response is
committed: the store is exactly what `getOrCreateMemory` produced when the
request began. -/
theorem streaming_failure_behaviour (be : Backend) (toolCount : Nat) (dateTime : String)
    (rand : ℚ) (elapsed timestamp : Nat) (st : SessionMemories) (request : AgentRequest)
    (sessionId : String) (messages : List BaseMessage) (chunks : List String)
    (snaps : List (List BaseMessage)) (e1 e2 : String)
    (hb : buildMessageChain request (getOrCreateMemory st sessionId).1 dateTime
      = some messages)
    (hm : be.streamModel messages = (chunks, some e1))
    (ha : be.streamAgent messages = (snaps, some e2)) :
    (toolCount = 0 →
      handleStreamingResponse be toolCount dateTime rand elapsed timestamp st request
          sessionId
        = (SseEvent.start request.personality
            :: ((chunks.filter (fun c => c != "")).map SseEvent.chunk
              ++ [SseEvent.chunk streamErrorMsg,
                  SseEvent.ended request.personality (85/100 + rand * (15/100)) elapsed]),
           (getOrCreateMemory st sessionId).2, [BackendCall.modelStream messages]))
    ∧ (toolCount ≠ 0 →
      handleStreamingResponse be toolCount dateTime rand elapsed timestamp st request
          sessionId
        = (SseEvent.start request.personality
            :: ((snaps.foldl agentSnapshotStep ⟨"", "", []⟩).emitted.map SseEvent.chunk
              ++ [SseEvent.chunk streamErrorMsg,
                  SseEvent.ended request.personality (85/100 + rand * (15/100)) elapsed]),
           (getOrCreateMemory st sessionId).2, [BackendCall.agentStream messages]))
    ∧ (∀ l : List String,
        (SseEvent.start request.personality
          :: (l.map SseEvent.chunk
            ++ [SseEvent.chunk streamErrorMsg,
                SseEvent.ended request.personality (85/100 + rand * (15/100)) elapsed])).countP
          isErrorEvent = 0) := by
  refine ⟨?_, ?_, ?_⟩
  · intro ht
    simp only [handleStreamingResponse, streamMessage, hb, if_pos ht, hm]
    simp [List.map_append]
  · intro ht
    simp only [handleStreamingResponse, streamMessage, hb, if_neg ht, ha]
    simp [List.map_append]
  · intro l
    simp [List.countP_cons, List.countP_append, countP_isErrorEvent_map_chunk,
      isErrorEvent]

/-- Witness for C3 (amended) at the concrete failing-stream backend. -/
theorem streaming_failure_behaviour_witness :
    (buildMessageChain ⟨"hi", "default", 50⟩
        (getOrCreateMemory ([] : SessionMemories) "w3").1 "dt"
      = some ((buildMessageChain ⟨"hi", "default", 50⟩
          (getOrCreateMemory ([] : SessionMemories) "w3").1 "dt").getD []))
    ∧ (failingStreamBackend.streamModel ((buildMessageChain ⟨"hi", "default", 50⟩
        (getOrCreateMemory ([] : SessionMemories) "w3").1 "dt").getD [])
      = (["Hel", "lo"], some "boom1"))
    ∧ (failingStreamBackend.streamAgent ((buildMessageChain ⟨"hi", "default", 50⟩
        (getOrCreateMemory ([] : SessionMemories) "w3").1 "dt").getD [])
      = ([[⟨MsgKind.ai, "Par", false⟩]], some "boom2"))
    ∧ (((0 : Nat) = 0 →
        handleStreamingResponse failingStreamBackend 0 "dt" 0 8 1 ([] : SessionMemories)
            ⟨"hi", "default", 50⟩ "w3"
          = (SseEvent.start "default"
              :: ((["Hel", "lo"].filter (fun c => c != "")).map SseEvent.chunk
                ++ [SseEvent.chunk streamErrorMsg,
                    SseEvent.ended "default" (85/100 + 0 * (15/100)) 8]),
             (getOrCreateMemory ([] : SessionMemories) "w3").2,
             [BackendCall.modelStream ((buildMessageChain ⟨"hi", "default", 50⟩
               (getOrCreateMemory ([] : SessionMemories) "w3").1 "dt").getD [])]))
      ∧ ((0 : Nat) ≠ 0 →
        handleStreamingResponse failingStreamBackend 0 "dt" 0 8 1 ([] : SessionMemories)
            ⟨"hi", "default", 50⟩ "w3"
          = (SseEvent.start "default"
              :: (([[⟨MsgKind.ai, "Par", false⟩]].foldl agentSnapshotStep
                  ⟨"", "", []⟩).emitted.map SseEvent.chunk
                ++ [SseEvent.chunk streamErrorMsg,
                    SseEvent.ended "default" (85/100 + 0 * (15/100)) 8]),
             (getOrCreateMemory ([] : SessionMemories) "w3").2,
             [BackendCall.agentStream ((buildMessageChain ⟨"hi", "default", 50⟩
               (getOrCreateMemory ([] : SessionMemories) "w3").1 "dt").getD [])]))
      ∧ (∀ l : List String,
          (SseEvent.start "default"
            :: (l.map SseEvent.chunk
              ++ [SseEvent.chunk streamErrorMsg,
                  SseEvent.ended "default" (85/100 + 0 * (15/100)) 8])).countP
            isErrorEvent = 0)) :=
  ⟨rfl, rfl, rfl,
   streaming_failure_behaviour failingStreamBackend 0 "dt" 0 8 1 []
     ⟨"hi", "default", 50⟩ "w3"
     ((buildMessageChain ⟨"hi", "default", 50⟩
       (getOrCreateMemory ([] : SessionMemories) "w3").1 "dt").getD [])
     ["Hel", "lo"] [[⟨MsgKind.ai, "Par", false⟩]] "boom1" "boom2" rfl rfl rfl⟩

/-! ### C5: suffix-only emission for strictly growing candidates -/

theorem string_data_inj {a b : String} (h : a.data = b.data) : a = b := by
  cases a; cases b; cases h; rfl

theorem str_append_empty (s : String) : s ++ "" = s :=
  congrArg String.mk (List.append_nil s.data)

/-- A strictly growing candidate chain: each candidate properly extends
(has as a strict prefix) the one before it, starting from `l`. -/
def growingFrom : String → List String → Bool
  | _, [] => true
  | l, c :: rest => (decide (l.data <+: c.data) && l != c) && growingFrom c rest

/-- The successive not-yet-emitted suffixes of a candidate chain. -/
def sfxFrom : String → List String → List String
  | _, [] => []
  | l, c :: rest => strDrop c l.length :: sfxFrom c rest

/-- The last candidate of a chain (default `d` for an empty chain). -/
def lastD : String → List String → String
  | d, [] => d
  | _, c :: rest => lastD c rest

theorem prefix_lastD (cs : List String) :
    ∀ l : String, growingFrom l cs = true → l.data <+: (lastD l cs).data := by
  induction cs with
  | nil => intro l _; exact List.prefix_refl _
  | cons c rest ih =>
    intro l hg
    simp only [growingFrom, Bool.and_eq_true, decide_eq_true_eq, bne_iff_ne] at hg
    exact hg.1.1.trans (ih c hg.2)

theorem foldl_candStep_growing (cs : List String) :
    ∀ (l r : String) (em : List String), growingFrom l cs = true →
      cs.foldl candStep ⟨l, r, em⟩
        = ⟨lastD l cs, r ++ strDrop (lastD l cs) l.length, em ++ sfxFrom l cs⟩ := by
  induction cs with
  | nil =>
    intro l r em _
    simp only [List.foldl_nil, lastD, sfxFrom, List.append_nil]
    have e : strDrop l l.length = "" := by
      show (⟨l.data.drop l.data.length⟩ : String) = ""
      rw [List.drop_length]
    rw [e, str_append_empty]
  | cons c rest ih =>
    intro l r em hg
    simp only [growingFrom, Bool.and_eq_true, decide_eq_true_eq, bne_iff_ne] at hg
    obtain ⟨⟨hpre, hne⟩, hrest⟩ := hg
    obtain ⟨t, ht⟩ := hpre
    have htne : t ≠ [] := by
      intro hx
      apply hne
      apply string_data_inj
      rw [← ht, hx, List.append_nil]
    have hcne : c ≠ "" := by
      intro hx
      rw [hx] at ht
      exact htne (List.append_eq_nil.mp ht).2
    have hdrop : strDrop c l.length = ⟨t⟩ := by
      show (⟨c.data.drop l.data.length⟩ : String) = ⟨t⟩
      rw [← ht, List.drop_left]
    have hne' : c ≠ l := fun hx => hne hx.symm
    have htne' : (⟨t⟩ : String) ≠ "" := by
      intro hx
      exact htne (congrArg String.data hx)
    have hstep : candStep ⟨l, r, em⟩ c = ⟨c, r ++ ⟨t⟩, em ++ [⟨t⟩]⟩ := by
      simp [candStep, bne_iff_ne, hcne, hne', hdrop, htne']
    rw [List.foldl_cons, hstep, ih c (r ++ ⟨t⟩) (em ++ [(⟨t⟩ : String)]) hrest]
    obtain ⟨u, hu⟩ := prefix_lastD rest c hrest
    have hlast : (lastD c rest).data = l.data ++ (t ++ u) := by
      rw [← hu, ← ht, List.append_assoc]
    show (⟨lastD c rest, (r ++ ⟨t⟩) ++ strDrop (lastD c rest) c.length,
      (em ++ [⟨t⟩]) ++ sfxFrom c rest⟩ : ReconcilerState)
      = ⟨lastD c rest, r ++ strDrop (lastD c rest) l.length,
         em ++ (strDrop c l.length :: sfxFrom c rest)⟩
    have e1 : strDrop (lastD c rest) c.length = ⟨u⟩ := by
      show (⟨(lastD c rest).data.drop c.data.length⟩ : String) = ⟨u⟩
      rw [← hu, List.drop_left]
    have e2 : strDrop (lastD c rest) l.length = ⟨t ++ u⟩ := by
      show (⟨(lastD c rest).data.drop l.data.length⟩ : String) = ⟨t ++ u⟩
      rw [hlast, List.drop_left]
    rw [e1, e2, hdrop]
    have e3 : (r ++ ⟨t⟩) ++ ⟨u⟩ = r ++ ⟨t ++ u⟩ := by
      apply string_data_inj
      show (r.data ++ t) ++ u = r.data ++ (t ++ u)
      rw [List.append_assoc]
    rw [e3]
    simp

theorem strConcat_sfxFrom (cs : List String) :
    ∀ l : String, growingFrom l cs = true →
      strConcat (sfxFrom l cs) = strDrop (lastD l cs) l.length := by
  induction cs with
  | nil =>
    intro l _
    show "" = strDrop l l.length
    symm
    show (⟨l.data.drop l.data.length⟩ : String) = ""
    rw [List.drop_length]
  | cons c rest ih =>
    intro l hg
    simp only [growingFrom, Bool.and_eq_true, decide_eq_true_eq, bne_iff_ne] at hg
    obtain ⟨⟨hpre, hne⟩, hrest⟩ := hg
    obtain ⟨t, ht⟩ := hpre
    obtain ⟨u, hu⟩ := prefix_lastD rest c hrest
    show strDrop c l.length ++ strConcat (sfxFrom c rest) = strDrop (lastD c rest) l.length
    rw [ih c hrest]
    apply string_data_inj
    show (c.data.drop l.data.length) ++ ((lastD c rest).data.drop c.data.length)
      = (lastD c rest).data.drop l.data.length
    rw [← hu, ← ht, List.drop_left, List.drop_left, List.append_assoc, List.drop_left]

/-- A concrete agent-stream backend delivering the strictly growing snapshot
candidates "Hi", "Hi there", "Hi there!". -/
def growingAgentBackend : Backend :=
  { invokeModel := fun _ => Except.ok ⟨MsgKind.ai, "direct answer", false⟩
    invokeAgent := fun _ => Except.ok []
    streamModel := fun _ => ([], none)
    streamAgent := fun _ =>
      ([[⟨MsgKind.ai, "Hi", false⟩], [⟨MsgKind.ai, "Hi there", false⟩],
        [⟨MsgKind.ai, "Hi there!", false⟩]], none) }

/-- C5: For the snapshot candidates "Hi", "Hi there", "Hi there!" the
agent-path reconciler emits exactly the fragments "Hi", " there", "!" in that
order, their concatenation is the final candidate "Hi there!" (which is also
the committed assistant turn); and in general, for any strictly growing
candidate chain, the emitted fragments are exactly the successive
not-yet-emitted suffixes and their concatenation (equally, the accumulated
`fullResponse`) equals the final candidate. -/
theorem reconciler_growing_suffixes :
    ((streamMessage growingAgentBackend 3 "dt" 0 ([] : SessionMemories)
        ⟨"hi", "default", 50⟩ "c5").1 = ["Hi", " there", "!"]
      ∧ strConcat ["Hi", " there", "!"] = "Hi there!"
      ∧ getHistory (streamMessage growingAgentBackend 3 "dt" 0 ([] : SessionMemories)
          ⟨"hi", "default", 50⟩ "c5").2.1 "c5"
        = [⟨Role.user, "hi", 0⟩, ⟨Role.assistant, "Hi there!", 0⟩])
    ∧ (∀ cs : List String, growingFrom "" cs = true →
        (cs.foldl candStep ⟨"", "", []⟩).emitted = sfxFrom "" cs
        ∧ strConcat ((cs.foldl candStep ⟨"", "", []⟩).emitted) = lastD "" cs
        ∧ (cs.foldl candStep ⟨"", "", []⟩).fullResponse = lastD "" cs) := by
  constructor
  · exact ⟨rfl, rfl, rfl⟩
  · intro cs hg
    have h1 := foldl_candStep_growing cs "" "" [] hg
    have h2 := strConcat_sfxFrom cs "" hg
    have e0 : strDrop (lastD "" cs) ("" : String).length = lastD "" cs := rfl
    rw [h1]
    refine ⟨by simp, ?_, ?_⟩
    · show strConcat ([] ++ sfxFrom "" cs) = lastD "" cs
      rw [List.nil_append, h2, e0]
    · show "" ++ strDrop (lastD "" cs) ("" : String).length = lastD "" cs
      rw [e0]
      rfl

/-- Witness for C5's general clause at the concrete growing chain. -/
theorem reconciler_growing_suffixes_witness :
    (growingFrom "" ["Hi", "Hi there", "Hi there!"] = true)
    ∧ ((["Hi", "Hi there", "Hi there!"].foldl candStep ⟨"", "", []⟩).emitted
        = sfxFrom "" ["Hi", "Hi there", "Hi there!"]
      ∧ strConcat ((["Hi", "Hi there", "Hi there!"].foldl candStep ⟨"", "", []⟩).emitted)
        = lastD "" ["Hi", "Hi there", "Hi there!"]
      ∧ (["Hi", "Hi there", "Hi there!"].foldl candStep ⟨"", "", []⟩).fullResponse
        = lastD "" ["Hi", "Hi there", "Hi there!"]) :=
  ⟨by decide,
   reconciler_growing_suffixes.2 ["Hi", "Hi there", "Hi there!"] (by decide)⟩

end VibeChat
